import Mathlib

/-!
Verification development for the rUVC library (UVC 1.5 host-side control plane).

The definitions below are a shallow embedding of the Rust sources:
bytes are natural numbers below 256, byte slices are lists of naturals,
fallible readers return `Except IoErr`, and machine integers are `Nat`
or `Int` with explicit wrap arithmetic where the source relies on it.

Source files embedded:
- `src/util.rs`: byte readers (`BytesExt`) and `split_descriptors`.
- `src/control.rs`: the `ControlValue` codecs.
- `src/topo.rs` and `src/topo/parse.rs`: the topology model amd the
  control and streaming descriptor parsers.
- `src/lib.rs`, `src/error.rs`, `src/streaming_interface.rs`: the
  transfer retry wrapper `with_usb` and entity transfer layout.
-/

namespace RUVC

/-! ### Byte readers, from `src/util.rs` (`BytesExt` on byte slices) -/

/-- Error kind of the descriptor byte readers: `io::ErrorKind::UnexpectedEof`
versus any other io error (`io_err` builds `ErrorKind::Other`). -/
inductive IoErr where
  | eof
  | other (msg : String)
deriving DecidableEq, Repr

/-- `read_u8`: one byte, or unexpected end. -/
def readU8 : List Nat → Except IoErr (Nat × List Nat)
  | [] => .error .eof
  | b :: r => .ok (b, r)

/-- `read_u16::<LE>`: two bytes, little endian. -/
def readU16 : List Nat → Except IoErr (Nat × List Nat)
  | b0 :: b1 :: r => .ok (b0 + 256 * b1, r)
  | _ => .error .eof

/-- `read_u32::<LE>`: four bytes, little endian. -/
def readU32 : List Nat → Except IoErr (Nat × List Nat)
  | b0 :: b1 :: b2 :: b3 :: r =>
      .ok (b0 + 256 * b1 + 65536 * b2 + 16777216 * b3, r)
  | _ => .error .eof

/-- Reads exactly `n` bytes (the `split_at` part of `read_bitmask`, and
`read_exact` in `read_guid`). -/
def readBytes : Nat → List Nat → Except IoErr (List Nat × List Nat)
  | 0, l => .ok ([], l)
  | _ + 1, [] => .error .eof
  | n + 1, b :: l =>
      match readBytes n l with
      | .error e => .error e
      | .ok (bs, r) => .ok (b :: bs, r)

/-- Little-endian value of at most the first four bytes: `read_bitmask`
copies the read bytes into a zeroed `[u8; 4]`, so bytes past the fourth
are discarded. -/
def leVal4 : List Nat → Nat
  | [] => 0
  | [b0] => b0
  | [b0, b1] => b0 + 256 * b1
  | [b0, b1, b2] => b0 + 256 * b1 + 65536 * b2
  | b0 :: b1 :: b2 :: b3 :: _ => b0 + 256 * b1 + 65536 * b2 + 16777216 * b3

/-- `read_bitmask(len)`: fails with unexpected end when fewer than `len`
bytes remain, otherwise consumes `len` bytes and zero-extends at most
four of them, little endian, to a `u32`. -/
def readBitmask (len : Nat) (l : List Nat) : Except IoErr (Nat × List Nat) :=
  if len > l.length then .error .eof
  else
    match readBytes len l with
    | .error e => .error e
    | .ok (bs, r) => .ok (leVal4 bs, r)

/-- `read_length_prefixed_bitmask`: a length byte, then that many bytes. -/
def readLengthPrefixedBitmask (l : List Nat) : Except IoErr (Nat × List Nat) :=
  match readU8 l with
  | .error e => .error e
  | .ok (len, r) => readBitmask len r

/-- `read_nonzero_source_id` / `read_nonzero_term_id` / `read_nonzero_unit_id`:
one byte that must be non-zero; a zero byte is an `Other` io error, not
an unexpected end. -/
def readNonzeroId (msg : String) (l : List Nat) : Except IoErr (Nat × List Nat) :=
  match l with
  | [] => .error .eof
  | b :: r => if b = 0 then .error (.other msg) else .ok (b, r)

/-- The UVC GUID encoding read by `read_guid`: `u32 LE`, `u16 LE`, `u16 LE`,
then eight raw bytes. -/
structure Uuid where
  d1 : Nat
  d2 : Nat
  d3 : Nat
  d4 : List Nat
deriving DecidableEq, Repr

/-- `read_guid`. -/
def readGuid (l : List Nat) : Except IoErr (Uuid × List Nat) :=
  match readU32 l with
  | .error e => .error e
  | .ok (d1, l) =>
    match readU16 l with
    | .error e => .error e
    | .ok (d2, l) =>
      match readU16 l with
      | .error e => .error e
      | .ok (d3, l) =>
        match readBytes 8 l with
        | .error e => .error e
        | .ok (d4, l) => .ok (⟨d1, d2, d3, d4⟩, l)

/-- `read_time_100ns`: a `u32 LE` count of 100 ns units, returned as a
duration in nanoseconds (`Duration::from_nanos(units * 100)`). -/
def readTime100ns (l : List Nat) : Except IoErr (Nat × List Nat) :=
  match readU32 l with
  | .error e => .error e
  | .ok (units, r) => .ok (units * 100, r)

/-- `(0..count).map(|_| rd(..)).collect::<io::Result<Vec<_>>>()`: `count`
sequential reads, short-circuiting on the first error. -/
def readCount {α : Type} (rd : List Nat → Except IoErr (α × List Nat)) :
    Nat → List Nat → Except IoErr (List α × List Nat)
  | 0, l => .ok ([], l)
  | n + 1, l =>
      match rd l with
      | .error e => .error e
      | .ok (v, l) =>
        match readCount rd n l with
        | .error e => .error e
        | .ok (vs, r) => .ok (v :: vs, r)

/-! ### Control value codecs, from `src/control.rs`

Each `ControlValue` impl becomes an `encode` function producing the wire
bytes of the declared buffer size and a `decode` function reading them
back.  Wire bytes are naturals below 256. -/

/-- `bool::encode`: `buf[0] = *self as u8`. -/
def boolEncode (b : Bool) : List Nat := [if b then 1 else 0]

/-- `bool::decode`: 0 is false, everything else decodes to true (values
above 1 warn). -/
def boolDecode (l : List Nat) : Bool :=
  match l.headD 0 with
  | 0 => false
  | _ => true

/-- `u8::encode`. -/
def u8Encode (n : Nat) : List Nat := [n]

/-- `u8::decode`. -/
def u8Decode (l : List Nat) : Nat := l.headD 0

/-- `i8::encode`: `buf[0] = *self as u8` (two complement wrap). -/
def i8Encode (x : Int) : List Nat := [(x % 256).toNat]

/-- `i8::decode`: `buf[0] as i8`. -/
def i8Decode (l : List Nat) : Int :=
  let b := l.headD 0
  if b < 128 then (b : Int) else (b : Int) - 256

/-- `u16::to_le_bytes`. -/
def le2 (n : Nat) : List Nat := [n % 256, n / 256 % 256]

/-- `u32::to_le_bytes`. -/
def le4 (n : Nat) : List Nat :=
  [n % 256, n / 256 % 256, n / 65536 % 256, n / 16777216 % 256]

/-- `u16::encode`. -/
def u16Encode (n : Nat) : List Nat := le2 n

/-- `u16::decode`: `from_le_bytes` of the two buffer bytes. -/
def u16Decode (l : List Nat) : Nat := l.getD 0 0 + 256 * l.getD 1 0

/-- `i16::encode`: little-endian two complement. -/
def i16Encode (x : Int) : List Nat := le2 (x % 65536).toNat

/-- `i16::decode`. -/
def i16Decode (l : List Nat) : Int :=
  let v := l.getD 0 0 + 256 * l.getD 1 0
  if v < 32768 then (v : Int) else (v : Int) - 65536

/-- `u32::encode`. -/
def u32Encode (n : Nat) : List Nat := le4 n

/-- `u32::decode`. -/
def u32Decode (l : List Nat) : Nat :=
  l.getD 0 0 + 256 * l.getD 1 0 + 65536 * l.getD 2 0 + 16777216 * l.getD 3 0

/-- `PowerLineFrequency`. -/
inductive PowerLineFrequency where
  | disabled
  | freq50Hz
  | freq60Hz
  | auto
deriving DecidableEq, Repr

/-- Discriminant of `PowerLineFrequency` (`(*self) as u8`). -/
def plfRaw : PowerLineFrequency → Nat
  | .disabled => 0
  | .freq50Hz => 1
  | .freq60Hz => 2
  | .auto => 3

/-- `PowerLineFrequency::encode`. -/
def plfEncode (p : PowerLineFrequency) : List Nat := [plfRaw p]

/-- `PowerLineFrequency::decode`: unknown values decode to `Disabled`
with a warning. -/
def plfDecode (l : List Nat) : PowerLineFrequency :=
  match l.headD 0 with
  | 0 => .disabled
  | 1 => .freq50Hz
  | 2 => .freq60Hz
  | 3 => .auto
  | _ => .disabled

/-- Defined bits of the `AutoExposureMode` bitflags (four flags). -/
def autoExposureModeMask : Nat := 0x0F

/-- `AutoExposureMode::encode` (`self.bits()`); the value is the raw
bitflags word. -/
def aemEncode (v : Nat) : List Nat := [v]

/-- `AutoExposureMode::decode`: `from_bits_truncate`. -/
def aemDecode (l : List Nat) : Nat := l.headD 0 &&& autoExposureModeMask

/-- `WhiteBalanceComponents`. -/
structure WhiteBalanceComponents where
  blue : Nat
  red : Nat
deriving DecidableEq, Repr

/-- `WhiteBalanceComponents::encode`: blue then red, each `u16 LE`. -/
def wbcEncode (w : WhiteBalanceComponents) : List Nat := le2 w.blue ++ le2 w.red

/-- `WhiteBalanceComponents::decode`. -/
def wbcDecode (l : List Nat) : WhiteBalanceComponents :=
  { blue := l.getD 0 0 + 256 * l.getD 1 0
    red := l.getD 2 0 + 256 * l.getD 3 0 }

/-- `ExposureTimeAbs`: a newtype over `u32` (100 microsecond units). -/
structure ExposureTimeAbs where
  units : Nat
deriving DecidableEq, Repr

/-- `ExposureTimeAbs::encode`. -/
def etaEncode (e : ExposureTimeAbs) : List Nat := le4 e.units

/-- `ExposureTimeAbs::decode`. -/
def etaDecode (l : List Nat) : ExposureTimeAbs := ⟨u32Decode l⟩

/-- `FocusRel`. -/
structure FocusRel where
  focus_rel : Int
  speed : Nat
deriving DecidableEq, Repr

/-- `FocusRel::encode`: `buf[0] = focus_rel as u8; buf[1] = speed`. -/
def focusRelEncode (f : FocusRel) : List Nat :=
  [(f.focus_rel % 256).toNat, f.speed]

/-- `FocusRel::decode`. -/
def focusRelDecode (l : List Nat) : FocusRel :=
  { focus_rel := i8Decode l
    speed := l.getD 1 0 }

/-- `FocusSimple`. -/
inductive FocusSimple where
  | fullRange
  | macroFocus
  | people
  | scene
deriving DecidableEq, Repr

/-- Discriminant of `FocusSimple`. -/
def fsRaw : FocusSimple → Nat
  | .fullRange => 0
  | .macroFocus => 1
  | .people => 2
  | .scene => 3

/-- `FocusSimple::encode`. -/
def fsEncode (f : FocusSimple) : List Nat := [fsRaw f]

/-- `FocusSimple::decode`: unknown values decode to `FullRange` with a
warning. -/
def fsDecode (l : List Nat) : FocusSimple :=
  match l.headD 0 with
  | 0 => .fullRange
  | 1 => .macroFocus
  | 2 => .people
  | 3 => .scene
  | _ => .fullRange

/-- `ProbeCommitControls` from `src/control.rs`: only the UVC 1.0 fields;
the UVC 1.1+ trailing fields are commented out in the source because the
Leap Motion firmware mishandles them.  `bmHint` is the raw `ProbeHint`
bitflags word (`repr(transparent)` over `u16`, read back untruncated by
`zerocopy::FromBytes`). -/
structure ProbeCommitControls where
  bmHint : Nat
  bFormatIndex : Nat
  bFrameIndex : Nat
  dwFrameInterval : Nat
  wKeyFrameRate : Nat
  wPFrameRate : Nat
  wCompQuality : Nat
  wCompWindowSize : Nat
  wDelay : Nat
  dwMaxVideoFrameSize : Nat
  dwMaxPayloadTransferSize : Nat
deriving DecidableEq, Repr

/-- `ProbeCommitControls::encode` (`zerocopy::AsBytes` of the packed
little-endian struct): 26 bytes. -/
def pccEncode (p : ProbeCommitControls) : List Nat :=
  le2 p.bmHint ++ [p.bFormatIndex, p.bFrameIndex] ++ le4 p.dwFrameInterval ++
  le2 p.wKeyFrameRate ++ le2 p.wPFrameRate ++ le2 p.wCompQuality ++
  le2 p.wCompWindowSize ++ le2 p.wDelay ++ le4 p.dwMaxVideoFrameSize ++
  le4 p.dwMaxPayloadTransferSize

/-- Little-endian `u16` at a byte offset. -/
def u16At (l : List Nat) (i : Nat) : Nat := l.getD i 0 + 256 * l.getD (i + 1) 0

/-- Little-endian `u32` at a byte offset. -/
def u32At (l : List Nat) (i : Nat) : Nat :=
  l.getD i 0 + 256 * l.getD (i + 1) 0 + 65536 * l.getD (i + 2) 0 +
  16777216 * l.getD (i + 3) 0

/-- `ProbeCommitControls::decode` (`zerocopy::FromBytes::read_from`):
`none` unless the buffer is exactly 26 bytes (the source then panics via
`expect`, which never fires because the declared buffer is 26 bytes). -/
def pccDecode (l : List Nat) : Option ProbeCommitControls :=
  if l.length = 26 then
    some
      { bmHint := u16At l 0
        bFormatIndex := l.getD 2 0
        bFrameIndex := l.getD 3 0
        dwFrameInterval := u32At l 4
        wKeyFrameRate := u16At l 8
        wPFrameRate := u16At l 10
        wCompQuality := u16At l 12
        wCompWindowSize := u16At l 14
        wDelay := u16At l 16
        dwMaxVideoFrameSize := u32At l 18
        dwMaxPayloadTransferSize := u32At l 22 }
  else none

/-! ### Topology model, from `src/topo.rs`

Identifiers (`SourceId`, `TermId`, `UnitId`) wrap `NonZeroU8` in the
source; here they are plain naturals, with non-zero-ness proved as the
parser invariant the claims are about. -/

/-- `ControlHeader`. -/
structure ControlHeader where
  uvc_version : Nat
  total_len : Nat
  clock_freq_hz : Nat
  streaming_interfaces : List Nat
deriving DecidableEq, Repr

/-- `CameraTerminalDesc`; `controls` is the raw `CameraControls` word. -/
structure CameraTerminalDesc where
  objective_focal_length_min : Nat
  objective_focal_length_max : Nat
  ocular_focal_length : Nat
  controls : Nat
deriving DecidableEq, Repr

/-- `InputTerminalKind`. -/
inductive InputTerminalKind where
  | camera (d : CameraTerminalDesc)
  | other
deriving DecidableEq, Repr

/-- `InputTerminalDesc`; `assoc` is `Option` because `TermId::new(0)` is
`None`. -/
structure InputTerminalDesc where
  term_id : Nat
  term_type : Nat
  assoc : Option Nat
  string : Nat
  kind : InputTerminalKind
deriving DecidableEq, Repr

/-- `OutputTerminalDesc`. -/
structure OutputTerminalDesc where
  term_id : Nat
  term_type : Nat
  assoc : Option Nat
  source : Nat
  string : Nat
deriving DecidableEq, Repr

/-- `SelectorUnitDesc`. -/
structure SelectorUnitDesc where
  id : Nat
  inputs : List Nat
deriving DecidableEq, Repr

/-- `ProcessingUnitDesc`; `controls` and `standards` are the truncated
bitflags words. -/
structure ProcessingUnitDesc where
  id : Nat
  source : Nat
  max_multiplier : Nat
  controls : Nat
  string : Nat
  standards : Nat
deriving DecidableEq, Repr

/-- `ExtensionUnitDesc`. -/
structure ExtensionUnitDesc where
  id : Nat
  extension_code : Uuid
  num_controls : Nat
  inputs : List Nat
  controls_bitmap : List Nat
deriving DecidableEq, Repr

/-- `UnitKind`. -/
inductive UnitKind where
  | selector (d : SelectorUnitDesc)
  | processing (d : ProcessingUnitDesc)
  | extension (d : ExtensionUnitDesc)
deriving DecidableEq, Repr

/-- `UnitDesc`. -/
structure UnitDesc where
  kind : UnitKind
deriving DecidableEq, Repr

/-- `Topology`. -/
structure Topology where
  header : ControlHeader
  units : List UnitDesc
  inputs : List InputTerminalDesc
  outputs : List OutputTerminalDesc
deriving DecidableEq, Repr

/-- Defined bits of `ProcessingUnitControls` (19 flags, bits 0..18). -/
def processingUnitControlsMask : Nat := 0x7FFFF

/-- Defined bits of `VideoStandards` (6 flags, bits 0..5). -/
def videoStandardsMask : Nat := 0x3F

/-- Defined bits of `CameraControls` (bits 0..14 and 17..21). -/
def cameraControlsMask : Nat := 0x3E7FFF

/-! ### Control descriptor parser, from `src/topo/parse.rs` -/

/-- The mutable `ControlDescParser` state. -/
structure CtrlState where
  header : Option ControlHeader
  units : List UnitDesc
  inputs : List InputTerminalDesc
  outputs : List OutputTerminalDesc
deriving DecidableEq, Repr

/-- The initial parser state built by `parse_control_desc`. -/
def ctrlState0 : CtrlState := ⟨none, [], [], []⟩

/-- HEADER(0x01) branch of `parse_descriptor_impl`. -/
def parseHeaderD (st : CtrlState) (raw : List Nat) : Except IoErr CtrlState :=
  if st.header.isSome then .error (.other "duplicate VC_HEADER descriptor")
  else
    match readU16 raw with
    | .error e => .error e
    | .ok (ver, raw) =>
      match readU16 raw with
      | .error e => .error e
      | .ok (tl, raw) =>
        match readU32 raw with
        | .error e => .error e
        | .ok (cf, raw) =>
          match readU8 raw with
          | .error e => .error e
          | .ok (count, raw) =>
            match readCount readU8 count raw with
            | .error e => .error e
            | .ok (ifaces, _) =>
                .ok { st with header := some ⟨ver, tl, cf, ifaces⟩ }

/-- INPUT_TERM(0x02) branch: builds the terminal, then reads the
camera-specific fields when `term_type` is `InCamera` (0x0201). -/
def parseInputTermD (st : CtrlState) (raw : List Nat) : Except IoErr CtrlState :=
  match readNonzeroId "bTerminalID is 0, only non-zero numbers are allowed" raw with
  | .error e => .error e
  | .ok (tid, raw) =>
    match readU16 raw with
    | .error e => .error e
    | .ok (tt, raw) =>
      match readU8 raw with
      | .error e => .error e
      | .ok (assoc, raw) =>
        match readU8 raw with
        | .error e => .error e
        | .ok (str, raw) =>
          if tt = 0x0201 then
            match readU16 raw with
            | .error e => .error e
            | .ok (fmin, raw) =>
              match readU16 raw with
              | .error e => .error e
              | .ok (fmax, raw) =>
                match readU16 raw with
                | .error e => .error e
                | .ok (foc, raw) =>
                  match readLengthPrefixedBitmask raw with
                  | .error e => .error e
                  | .ok (ctrls, _) =>
                      .ok { st with inputs := st.inputs ++
                        [⟨tid, tt, if assoc = 0 then none else some assoc, str,
                          .camera ⟨fmin, fmax, foc, ctrls &&& cameraControlsMask⟩⟩] }
          else
            .ok { st with inputs := st.inputs ++
              [⟨tid, tt, if assoc = 0 then none else some assoc, str, .other⟩] }

/-- OUTPUT_TERMINAL(0x03) branch. -/
def parseOutputTermD (st : CtrlState) (raw : List Nat) : Except IoErr CtrlState :=
  match readNonzeroId "bTerminalID is 0, only non-zero numbers are allowed" raw with
  | .error e => .error e
  | .ok (tid, raw) =>
    match readU16 raw with
    | .error e => .error e
    | .ok (tt, raw) =>
      match readU8 raw with
      | .error e => .error e
      | .ok (assoc, raw) =>
        match readNonzeroId "bSourceID is 0, only non-zero numbers are allowed" raw with
        | .error e => .error e
        | .ok (src, raw) =>
          match readU8 raw with
          | .error e => .error e
          | .ok (str, _) =>
              .ok { st with outputs := st.outputs ++
                [⟨tid, tt, if assoc = 0 then none else some assoc, src, str⟩] }

/-- SELECTOR_UNIT(0x04) branch. -/
def parseSelectorD (st : CtrlState) (raw : List Nat) : Except IoErr CtrlState :=
  match readNonzeroId "bUnitID is 0, only non-zero numbers are allowed" raw with
  | .error e => .error e
  | .ok (uid, raw) =>
    match readU8 raw with
    | .error e => .error e
    | .ok (num, raw) =>
      match readCount (readNonzeroId "bSourceID is 0, only non-zero numbers are allowed") num raw with
      | .error e => .error e
      | .ok (srcs, _) =>
          .ok { st with units := st.units ++ [⟨.selector ⟨uid, srcs⟩⟩] }

/-- PROCESSING_UNIT(0x05) branch. -/
def parseProcessingD (st : CtrlState) (raw : List Nat) : Except IoErr CtrlState :=
  match readNonzeroId "bUnitID is 0, only non-zero numbers are allowed" raw with
  | .error e => .error e
  | .ok (uid, raw) =>
    match readNonzeroId "bSourceID is 0, only non-zero numbers are allowed" raw with
    | .error e => .error e
    | .ok (src, raw) =>
      match readU16 raw with
      | .error e => .error e
      | .ok (mm, raw) =>
        match readLengthPrefixedBitmask raw with
        | .error e => .error e
        | .ok (ctrls, raw) =>
          match readU8 raw with
          | .error e => .error e
          | .ok (str, raw) =>
            match readU8 raw with
            | .error e => .error e
            | .ok (stds, _) =>
                .ok { st with units := st.units ++
                  [⟨.processing ⟨uid, src, mm, ctrls &&& processingUnitControlsMask,
                    str, stds &&& videoStandardsMask⟩⟩] }

/-- EXTENSION_UNIT(0x06) branch. -/
def parseExtensionD (st : CtrlState) (raw : List Nat) : Except IoErr CtrlState :=
  match readNonzeroId "bUnitID is 0, only non-zero numbers are allowed" raw with
  | .error e => .error e
  | .ok (uid, raw) =>
    match readGuid raw with
    | .error e => .error e
    | .ok (guid, raw) =>
      match readU8 raw with
      | .error e => .error e
      | .ok (numCtrl, raw) =>
        match readU8 raw with
        | .error e => .error e
        | .ok (count, raw) =>
          match readCount (readNonzeroId "bSourceID is 0, only non-zero numbers are allowed") count raw with
          | .error e => .error e
          | .ok (srcs, raw) =>
            match readU8 raw with
            | .error e => .error e
            | .ok (sz, raw) =>
              match readCount readU8 sz raw with
              | .error e => .error e
              | .ok (bitmap, _) =>
                  .ok { st with units := st.units ++
                    [⟨.extension ⟨uid, guid, numCtrl, srcs, bitmap⟩⟩] }

/-- `ControlDescParser::parse_descriptor_impl`: reads the subtype byte
and dispatches; ENCODING_UNIT(0x07) and unknown subtypes are `Other` io
errors. -/
def parseCtrlImpl (st : CtrlState) (raw : List Nat) : Except IoErr CtrlState :=
  match readU8 raw with
  | .error e => .error e
  | .ok (subtype, raw) =>
    match subtype with
    | 0x01 => parseHeaderD st raw
    | 0x02 => parseInputTermD st raw
    | 0x03 => parseOutputTermD st raw
    | 0x04 => parseSelectorD st raw
    | 0x05 => parseProcessingD st raw
    | 0x06 => parseExtensionD st raw
    | 0x07 => .error (.other "unimplemented descriptor subtype 7")
    | _ => .error (.other "invalid/unknown descriptor subtype")

/-- `ControlDescParser::parse_descriptor`: on an unexpected-end failure,
retry once against the payload extended with 100 zero bytes; the retry
result is final. -/
def parseCtrlDescriptor (st : CtrlState) (raw : List Nat) : Except IoErr CtrlState :=
  match parseCtrlImpl st raw with
  | .error .eof => parseCtrlImpl st (raw ++ List.replicate 100 0)
  | res => res

/-- Outcome of a whole-block parse.  `panicked` models a Rust panic (the
`&data[2..]` slice of a descriptor shorter than two bytes); `diverged`
models non-termination of the `split_descriptors` loop, reported when
the structural fuel runs out. -/
inductive ParseOutcome (α : Type) where
  | ok (a : α)
  | fail
  | panicked
  | diverged
deriving DecidableEq, Repr

/-- End of `parse_control_desc`: a missing VC_HEADER is an error,
otherwise the accumulated state becomes the topology. -/
def finishCtrl (st : CtrlState) : ParseOutcome Topology :=
  match st.header with
  | some h => .ok ⟨h, st.units, st.inputs, st.outputs⟩
  | none => .fail

/-- The `for (ty, data) in split_descriptors(..)` loop of
`parse_control_desc`.  Each step splits off `bLength` bytes; a
descriptor whose declared length exceeds the remaining data, a tail
shorter than two bytes, or an empty tail stops the iteration.  Type 36
descriptors are parsed from `data[2..]` (a panic when `data` is shorter
than two bytes); other types are skipped.  Fuel only decreases on loop
steps, so a run out of fuel witnesses the zero-length livelock. -/
def ctrlLoop : Nat → List Nat → CtrlState → ParseOutcome Topology
  | 0, _, _ => .diverged
  | fuel + 1, raw, st =>
    match raw with
    | len :: ty :: rest =>
      if len > (len :: ty :: rest).length then finishCtrl st
      else
        let data := (len :: ty :: rest).take len
        let next := (len :: ty :: rest).drop len
        if ty = 36 then
          if data.length < 2 then .panicked
          else
            match parseCtrlDescriptor st (data.drop 2) with
            | .ok st2 => ctrlLoop fuel next st2
            | .error _ => .fail
        else ctrlLoop fuel next st
    | _ => finishCtrl st

/-- `parse_control_desc` over the extra bytes of the control interface
descriptor. -/
def parseControlDesc (raw : List Nat) : ParseOutcome Topology :=
  ctrlLoop (raw.length + 1) raw ctrlState0

/-! ### Streaming descriptor parser, from `src/topo/parse.rs` -/

/-- `StillCaptureMethod`. -/
inductive StillCaptureMethod where
  | none | method1 | method2 | method3
deriving DecidableEq, Repr

/-- `StillCaptureMethod::from_raw`. -/
def stillCaptureFromRaw : Nat → Option StillCaptureMethod
  | 0 => some .none
  | 1 => some .method1
  | 2 => some .method2
  | 3 => some .method3
  | _ => Option.none

/-- `TriggerSupport`. -/
inductive TriggerSupport where
  | notSupported | supported
deriving DecidableEq, Repr

/-- `TriggerSupport::from_raw`. -/
def triggerSupportFromRaw : Nat → Option TriggerSupport
  | 0 => some .notSupported
  | 1 => some .supported
  | _ => none

/-- `TriggerUsage`. -/
inductive TriggerUsage where
  | initiateStillImageCapture | generalPurposeButtonEvent
deriving DecidableEq, Repr

/-- `TriggerUsage::from_raw`. -/
def triggerUsageFromRaw : Nat → Option TriggerUsage
  | 0 => some .initiateStillImageCapture
  | 1 => some .generalPurposeButtonEvent
  | _ => none

/-- Defined bits of `InputInterfaceInfo` (one flag). -/
def inputInterfaceInfoMask : Nat := 0x01

/-- Defined bits of `PerFormatControls` (six flags). -/
def perFormatControlsMask : Nat := 0x3F

/-- Defined bits of `InterlaceFlags` (bits 0..2 and 4..5). -/
def interlaceFlagsMask : Nat := 0x37

/-- Defined bits of `UncompressedFrameCapabilities` (two flags). -/
def uncompressedFrameCapabilitiesMask : Nat := 0x03

/-- `InputHeader`. -/
structure InputHeader where
  num_formats : Nat
  total_length : Nat
  endpoint_address : Nat
  info : Nat
  terminal_link : Nat
  still_capture_method : StillCaptureMethod
  trigger_support : TriggerSupport
  trigger_usage : TriggerUsage
  format_controls : List Nat
deriving DecidableEq, Repr

/-- `OutputHeader` (an empty struct in the source; never constructed by
the parser because OUTPUT_HEADER descriptors hit the unimplemented
branch). -/
structure OutputHeader where
deriving DecidableEq, Repr

/-- `FormatUncompressed`. -/
structure FormatUncompressed where
  format : Uuid
  bits_per_pixel : Nat
  default_frame_index : Nat
  aspect_ratio_x : Nat
  aspect_ratio_y : Nat
  interlace_flags : Nat
  copy_protect : Nat
deriving DecidableEq, Repr

/-- `FormatKind`. -/
inductive FormatKind where
  | uncompressed (f : FormatUncompressed)
deriving DecidableEq, Repr

/-- `Format`. -/
structure Format where
  format_index : Nat
  num_frame_descriptors : Nat
  kind : FormatKind
deriving DecidableEq, Repr

/-- `SupportedFrameIntervals`; durations are nanosecond counts. -/
inductive SupportedFrameIntervals where
  | continuous (minI maxI stepI : Nat)
  | discrete (supported : List Nat)
deriving DecidableEq, Repr

/-- `FrameUncompressed`. -/
structure FrameUncompressed where
  capabilities : Nat
  width : Nat
  height : Nat
  min_bit_rate : Nat
  max_bit_rate : Nat
  max_video_frame_buffer_size : Nat
  default_frame_interval : Nat
  frame_interval : SupportedFrameIntervals
deriving DecidableEq, Repr

/-- `FrameKind`. -/
inductive FrameKind where
  | uncompressed (f : FrameUncompressed)
deriving DecidableEq, Repr

/-- `Frame`. -/
structure Frame where
  frame_index : Nat
  kind : FrameKind
deriving DecidableEq, Repr

/-- `StreamingInterfaceKind`. -/
inductive StreamingInterfaceKind where
  | input (h : InputHeader)
  | output (h : OutputHeader)
deriving DecidableEq, Repr

/-- `StreamingInterfaceDesc`. -/
structure StreamingInterfaceDesc where
  id : Nat
  kind : StreamingInterfaceKind
  formats : List Format
  frames : List Frame
deriving DecidableEq, Repr

/-- The mutable `StreamingDescParser` state. -/
structure StreamState where
  in_header : Option InputHeader
  out_header : Option OutputHeader
  formats : List Format
  frames : List Frame
deriving DecidableEq, Repr

/-- The initial streaming parser state. -/
def streamState0 : StreamState := ⟨none, none, [], []⟩

/-- INPUT_HEADER(0x01) branch of the streaming `parse_descriptor_impl`. -/
def parseInputHeaderD (st : StreamState) (raw : List Nat) : Except IoErr StreamState :=
  if st.in_header.isSome then .error (.other "duplicate input header descriptor")
  else
    match readU8 raw with
    | .error e => .error e
    | .ok (numFormats, raw) =>
      match readU16 raw with
      | .error e => .error e
      | .ok (totalLen, raw) =>
        match readU8 raw with
        | .error e => .error e
        | .ok (ep, raw) =>
          match readU8 raw with
          | .error e => .error e
          | .ok (info, raw) =>
            match readNonzeroId "bTerminalID is 0, only non-zero numbers are allowed" raw with
            | .error e => .error e
            | .ok (tlink, raw) =>
              match readU8 raw with
              | .error e => .error e
              | .ok (scm, raw) =>
                match readU8 raw with
                | .error e => .error e
                | .ok (ts, raw) =>
                  match readU8 raw with
                  | .error e => .error e
                  | .ok (tu, raw) =>
                    match readU8 raw with
                    | .error e => .error e
                    | .ok (controlSize, raw) =>
                      match readCount
                          (fun l =>
                            match readBitmask controlSize l with
                            | .error e => .error e
                            | .ok (v, r) => .ok (v &&& perFormatControlsMask, r))
                          numFormats raw with
                      | .error e => .error e
                      | .ok (fcs, _) =>
                          .ok { st with in_header := some {
                              num_formats := numFormats
                              total_length := totalLen
                              endpoint_address := ep
                              info := info &&& inputInterfaceInfoMask
                              terminal_link := tlink
                              still_capture_method := (stillCaptureFromRaw scm).getD .none
                              trigger_support := (triggerSupportFromRaw ts).getD .notSupported
                              trigger_usage := (triggerUsageFromRaw tu).getD .initiateStillImageCapture
                              format_controls := fcs } }

/-- FORMAT_UNCOMPRESSED(0x04) branch. -/
def parseFormatUncompressedD (st : StreamState) (raw : List Nat) : Except IoErr StreamState :=
  match readU8 raw with
  | .error e => .error e
  | .ok (fidx, raw) =>
    match readU8 raw with
    | .error e => .error e
    | .ok (nfd, raw) =>
      match readGuid raw with
      | .error e => .error e
      | .ok (guid, raw) =>
        match readU8 raw with
        | .error e => .error e
        | .ok (bpp, raw) =>
          match readU8 raw with
          | .error e => .error e
          | .ok (dfi, raw) =>
            match readU8 raw with
            | .error e => .error e
            | .ok (arx, raw) =>
              match readU8 raw with
              | .error e => .error e
              | .ok (ary, raw) =>
                match readU8 raw with
                | .error e => .error e
                | .ok (ifl, raw) =>
                  match readU8 raw with
                  | .error e => .error e
                  | .ok (cp, _) =>
                      .ok { st with formats := st.formats ++
                        [⟨fidx, nfd, .uncompressed
                          ⟨guid, bpp, dfi, arx, ary, ifl &&& interlaceFlagsMask, cp⟩⟩] }

/-- FRAME_UNCOMPRESSED(0x05) branch. -/
def parseFrameUncompressedD (st : StreamState) (raw : List Nat) : Except IoErr StreamState :=
  match readU8 raw with
  | .error e => .error e
  | .ok (fidx, raw) =>
    match readU8 raw with
    | .error e => .error e
    | .ok (caps, raw) =>
      match readU16 raw with
      | .error e => .error e
      | .ok (w, raw) =>
        match readU16 raw with
        | .error e => .error e
        | .ok (h, raw) =>
          match readU32 raw with
          | .error e => .error e
          | .ok (minBr, raw) =>
            match readU32 raw with
            | .error e => .error e
            | .ok (maxBr, raw) =>
              match readU32 raw with
              | .error e => .error e
              | .ok (maxBuf, raw) =>
                match readTime100ns raw with
                | .error e => .error e
                | .ok (dfi, raw) =>
                  match readU8 raw with
                  | .error e => .error e
                  | .ok (ty, raw) =>
                    match
                      ((if ty = 0 then
                        match readTime100ns raw with
                        | .error e => .error e
                        | .ok (minI, raw) =>
                          match readTime100ns raw with
                          | .error e => .error e
                          | .ok (maxI, raw) =>
                            match readTime100ns raw with
                            | .error e => .error e
                            | .ok (stepI, r) =>
                                .ok (SupportedFrameIntervals.continuous minI maxI stepI, r)
                      else
                        match readCount readTime100ns ty raw with
                        | .error e => .error e
                        | .ok (l, r) => .ok (SupportedFrameIntervals.discrete l, r)) :
                        Except IoErr (SupportedFrameIntervals × List Nat)) with
                    | .error e => .error e
                    | .ok (fi, _) =>
                        .ok { st with frames := st.frames ++
                          [⟨fidx, .uncompressed
                            ⟨caps &&& uncompressedFrameCapabilitiesMask, w, h,
                              minBr, maxBr, maxBuf, dfi, fi⟩⟩] }

/-- The streaming `parse_descriptor_impl`: INPUT_HEADER, FORMAT and
FRAME_UNCOMPRESSED are parsed; OUTPUT_HEADER(0x02) and every other
subtype listed in the source fall into the unimplemented branch; the
rest are invalid.  Both are `Other` io errors. -/
def parseStreamImpl (st : StreamState) (raw : List Nat) : Except IoErr StreamState :=
  match readU8 raw with
  | .error e => .error e
  | .ok (subtype, raw) =>
    match subtype with
    | 0x01 => parseInputHeaderD st raw
    | 0x04 => parseFormatUncompressedD st raw
    | 0x05 => parseFrameUncompressedD st raw
    | 0x02 | 0x03 | 0x06 | 0x07 | 0x0A | 0x0C | 0x0D | 0x10 | 0x11 | 0x12
    | 0x13 | 0x14 | 0x15 | 0x16 | 0x17 | 0x18 =>
        .error (.other "unimplemented descriptor subtype")
    | _ => .error (.other "invalid/unknown descriptor subtype")

/-- The streaming `parse_descriptor`: the same retry-once-with-100-zero-
bytes policy as the control parser. -/
def parseStreamDescriptor (st : StreamState) (raw : List Nat) : Except IoErr StreamState :=
  match parseStreamImpl st raw with
  | .error .eof => parseStreamImpl st (raw ++ List.replicate 100 0)
  | res => res

/-- End of `parse_streaming_descriptor`: exactly one of the two headers
must be present. -/
def finishStream (ifaceNum : Nat) (st : StreamState) : ParseOutcome StreamingInterfaceDesc :=
  match st.in_header, st.out_header with
  | Option.none, some o => .ok ⟨ifaceNum, .output o, st.formats, st.frames⟩
  | some i, Option.none => .ok ⟨ifaceNum, .input i, st.formats, st.frames⟩
  | Option.none, Option.none => .fail
  | some _, some _ => .fail

/-- The `split_descriptors` loop of `parse_streaming_descriptor`; the
same shape as `ctrlLoop`. -/
def streamLoop (ifaceNum : Nat) :
    Nat → List Nat → StreamState → ParseOutcome StreamingInterfaceDesc
  | 0, _, _ => .diverged
  | fuel + 1, raw, st =>
    match raw with
    | len :: ty :: rest =>
      if len > (len :: ty :: rest).length then finishStream ifaceNum st
      else
        let data := (len :: ty :: rest).take len
        let next := (len :: ty :: rest).drop len
        if ty = 36 then
          if data.length < 2 then .panicked
          else
            match parseStreamDescriptor st (data.drop 2) with
            | .ok st2 => streamLoop ifaceNum fuel next st2
            | .error _ => .fail
        else streamLoop ifaceNum fuel next st
    | _ => finishStream ifaceNum st

/-- `parse_streaming_descriptor` over the extra bytes of a streaming
interface descriptor; `ifaceNum` is `desc.interface_number()`. -/
def parseStreamingDesc (ifaceNum : Nat) (raw : List Nat) :
    ParseOutcome StreamingInterfaceDesc :=
  streamLoop ifaceNum (raw.length + 1) raw streamState0

/-! ### Errors and the timeout-retry wrapper, from `src/error.rs` and
`src/lib.rs` -/

/-- `Action` from `src/error.rs`. -/
inductive Action where
  | accessingDeviceDescriptor
  | enumeratingDevices
  | openingDevice
  | readingDeviceString
  | readingControl
  | writingControl
  | streamNegotiation
  | streamRead
deriving DecidableEq, Repr

/-- The transport error reported by rusb, reduced to the distinction the
library inspects: `Timeout` versus everything else. -/
inductive RusbError where
  | timeout
  | otherErr
deriving DecidableEq, Repr

/-- `ErrorKind` from `src/error.rs`. -/
inductive ErrorKind where
  | rusb (e : RusbError)
  | io (e : IoErr)
  | otherMsg (msg : String)
deriving DecidableEq, Repr

/-- `Error`: a kind tagged with the action during which it arose. -/
structure Error where
  action : Option Action
  kind : ErrorKind
deriving DecidableEq, Repr

/-- `Error::is_usb_timeout`. -/
def Error.isUsbTimeout (e : Error) : Bool :=
  match e.kind with
  | .rusb .timeout => true
  | _ => false

/-- `ResultExt::during`: tags a failed result with the action. -/
def during {ε α : Type} (r : Except ε α) (a : Action) (mk : ε → ErrorKind) :
    Except Error α :=
  match r with
  | .ok v => .ok v
  | .error e => .error ⟨some a, mk e⟩

/-- `UvcDevice::with_usb`: the callback runs once; a USB-timeout failure
is retried by running the callback a second time, whose result is final.
The callback takes the attempt index so that a stateful transport can be
modelled as a pure function. -/
def withUsb {α : Type} (cb : Nat → Except Error α) : Except Error α :=
  match cb 0 with
  | .error e => if e.isUsbTimeout then cb 1 else .error e
  | .ok v => .ok v

/-- How many times `with_usb` invokes the callback. -/
def withUsbAttempts {α : Type} (cb : Nat → Except Error α) : Nat :=
  match cb 0 with
  | .error e => if e.isUsbTimeout then 2 else 1
  | .ok _ => 1

/-- A class-specific control-out transfer as handed to
`DeviceHandle::write_control`. -/
structure ControlOut where
  bmRequestType : Nat
  bRequest : Nat
  wValue : Nat
  wIndex : Nat
  data : List Nat
deriving DecidableEq, Repr

/-- A class-specific control-in transfer as handed to
`DeviceHandle::read_control` (the buffer is supplied by the caller, only
its length travels on the wire). -/
structure ControlIn where
  bmRequestType : Nat
  bRequest : Nat
  wValue : Nat
  wIndex : Nat
deriving DecidableEq, Repr

/-- Request codes from the `Request` enum in `src/lib.rs`. -/
def setCurRequest : Nat := 0x01

/-- The transfer built by `UvcDevice::set_interface_entity`:
`SET_ENTITY_REQ = 0b00100001`, request `SetCur`,
`wValue = u16::from(cs) << 8`, `wIndex = u16::from(entity_id) << 8 |
u16::from(interface)`. -/
def setInterfaceEntityTransfer (interface entity_id cs : Nat) (data : List Nat) :
    ControlOut :=
  { bmRequestType := 0b00100001
    bRequest := setCurRequest
    wValue := cs <<< 8
    wIndex := entity_id <<< 8 ||| interface
    data := data }

/-- The transfer built by `UvcDevice::read_interface_entity`:
`GET_ENTITY_REQ = 0b10100001`, the same `wValue` and `wIndex` layout. -/
def readInterfaceEntityTransfer (interface entity_id request cs : Nat) : ControlIn :=
  { bmRequestType := 0b10100001
    bRequest := request
    wValue := cs <<< 8
    wIndex := entity_id <<< 8 ||| interface }

/-- `UvcDevice::set_interface_entity`: builds the transfer and issues it
through `with_usb`, tagging transport failures with `WritingControl`.
The transport is a function from the transfer and the attempt index to
the rusb outcome (the written byte count on success). -/
def setInterfaceEntity (transport : ControlOut → Nat → Except RusbError Nat)
    (interface entity_id cs : Nat) (data : List Nat) : Except Error Unit :=
  withUsb fun attempt =>
    match during (transport (setInterfaceEntityTransfer interface entity_id cs data) attempt)
        .writingControl .rusb with
    | .error e => .error e
    | .ok _ => .ok ()

/-- `UvcDevice::read_interface_entity`, tagging failures with
`ReadingControl`.  Filling the caller buffer is left inside the
transport. -/
def readInterfaceEntity (transport : ControlIn → Nat → Except RusbError Nat)
    (interface entity_id request cs : Nat) : Except Error Unit :=
  withUsb fun attempt =>
    match during (transport (readInterfaceEntityTransfer interface entity_id request cs) attempt)
        .readingControl .rusb with
    | .error e => .error e
    | .ok _ => .ok ()

/-- `Stream::read`, `src/streaming_interface.rs`: a bulk read on the
stream endpoint through `with_usb`, tagged `StreamRead` (the caller then
wraps the error into `io::Error`). -/
def streamRead (transport : Nat → Nat → Except RusbError Nat) (ep : Nat) :
    Except Error Nat :=
  withUsb fun attempt => during (transport ep attempt) .streamRead .rusb

/-! ### Identifier and source sets of a topology

These fold the parsed structures into the identifier lists the spec
invariants quantify over. -/

/-- The identifier of a unit. -/
def unitIdOf (u : UnitDesc) : Nat :=
  match u.kind with
  | .selector d => d.id
  | .processing d => d.id
  | .extension d => d.id

/-- The source references held by a unit: a selector or extension unit
lists `inputs`, a processing unit has a single `source`. -/
def unitSourcesOf (u : UnitDesc) : List Nat :=
  match u.kind with
  | .selector d => d.inputs
  | .processing d => [d.source]
  | .extension d => d.inputs

/-- All terminal and unit identifiers of a topology. -/
def idsOf (t : Topology) : List Nat :=
  t.inputs.map (·.term_id) ++ t.outputs.map (·.term_id) ++ t.units.map unitIdOf

/-- All `SourceId` values stored in a topology: the units source
references and the output terminals `source` fields. -/
def sourceIdsOf (t : Topology) : List Nat :=
  (t.units.map unitSourcesOf).flatten ++ t.outputs.map (·.source)

/-- Modelled from the spec: the resolution invariant, "every `SourceId`
inside a unit resolves to some terminal or unit identifier in the same
topology".  The parser in `src/topo/parse.rs` performs no such check;
this definition exists to compare the spec invariant against parser
outputs. -/
def allSourcesResolve (t : Topology) : Bool :=
  (sourceIdsOf t).all fun s => (idsOf t).contains s

/-- Modelled from the spec: the uniqueness invariant, "every identifier
is unique across terminals and units combined".  The parser performs no
such check either. -/
def allIdsUnique (t : Topology) : Bool :=
  (idsOf t).Nodup

/-- Identifiers and sources accumulated so far in the control parser
state (same folds as `idsOf` and `sourceIdsOf`). -/
def stIds (st : CtrlState) : List Nat :=
  st.inputs.map (·.term_id) ++ st.outputs.map (·.term_id) ++ st.units.map unitIdOf

/-- Source references accumulated so far in the control parser state. -/
def stSources (st : CtrlState) : List Nat :=
  (st.units.map unitSourcesOf).flatten ++ st.outputs.map (·.source)

/-- Whether a streaming interface parsed as an Input header. -/
def isInputKind : StreamingInterfaceKind → Bool
  | .input _ => true
  | .output _ => false

/-- The invariant carried through the control parser state: every
accumulated identifier and every accumulated source reference is
non-zero. -/
def stOk (st : CtrlState) : Prop :=
  (∀ i ∈ stIds st, i ≠ 0) ∧ (∀ s ∈ stSources st, s ≠ 0)

/-! ### Termination side condition for the descriptor split loop

`split_descriptors` makes progress only when the leading `bLength` byte
of the current tail is at least 2 (a zero length re-yields the same
descriptor forever).  `goodLens` walks the block the same way the loop
does and checks every length byte that the loop would act on; it is
fueled exactly like the loop so that it evaluates by reduction. -/

/-- Fueled traversal checking all descriptor length bytes are at least
two (stopping, as the loop does, at a short tail or an overlong
descriptor). -/
def goodLensF : Nat → List Nat → Bool
  | 0, _ => false
  | _ + 1, [] => true
  | _ + 1, [_] => true
  | fuel + 1, len :: ty :: rest =>
    if len > (len :: ty :: rest).length then true
    else if len < 2 then false
    else goodLensF fuel ((len :: ty :: rest).drop len)

/-- All descriptor length bytes encountered by the split loop are at
least two. -/
def goodLens (raw : List Nat) : Bool := goodLensF (raw.length + 1) raw

/-- A parse outcome that is an ordinary result: `ok` or `fail`, neither
a modelled panic nor fuel exhaustion. -/
def notStuck {α : Type} : ParseOutcome α → Prop
  | .ok _ => True
  | .fail => True
  | .panicked => False
  | .diverged => False

/-! ### Concrete values and descriptor blocks used by the claims -/

/-- Wire representability of a `ProbeCommitControls` value: every field
fits its machine-integer width. -/
def pccWf (p : ProbeCommitControls) : Prop :=
  p.bmHint < 65536 ∧ p.bFormatIndex < 256 ∧ p.bFrameIndex < 256 ∧
  p.dwFrameInterval < 4294967296 ∧ p.wKeyFrameRate < 65536 ∧
  p.wPFrameRate < 65536 ∧ p.wCompQuality < 65536 ∧ p.wCompWindowSize < 65536 ∧
  p.wDelay < 65536 ∧ p.dwMaxVideoFrameSize < 4294967296 ∧
  p.dwMaxPayloadTransferSize < 4294967296

/-- The Leap-shaped probe value of the PROBE round-trip scenario:
`bFormatIndex = 1`, `bFrameIndex = 2`, `dwFrameInterval = 86956`, all
other fields zero. -/
def c1Probe : ProbeCommitControls :=
  { bmHint := 0, bFormatIndex := 1, bFrameIndex := 2, dwFrameInterval := 86956
    wKeyFrameRate := 0, wPFrameRate := 0, wCompQuality := 0, wCompWindowSize := 0
    wDelay := 0, dwMaxVideoFrameSize := 0, dwMaxPayloadTransferSize := 0 }

/-- A minimal VC HEADER descriptor block: `bLength = 12`, type 36,
subtype HEADER, version 0x0110, total length 0, clock 0, zero streaming
interfaces. -/
def hdrBlock : List Nat := [12, 36, 1, 0x10, 0x01, 0, 0, 0, 0, 0, 0, 0]

/-- An OUTPUT_TERMINAL descriptor whose `bSourceID` is 5 while no entity
with identifier 5 exists anywhere in the block. -/
def danglingOutputBlock : List Nat := hdrBlock ++ [9, 36, 3, 1, 1, 1, 0, 5, 0]

/-- The topology the parser returns for `danglingOutputBlock`. -/
def danglingOutputTopo : Topology :=
  { header := ⟨272, 0, 0, []⟩
    units := []
    inputs := []
    outputs := [⟨1, 257, none, 5, 0⟩] }

/-- An INPUT_TERM descriptor with terminal id 1 and a non-camera type. -/
def inputTermBlock : List Nat := [8, 36, 2, 1, 0, 1, 0, 0]

/-- A block declaring the same terminal identifier twice. -/
def duplicateIdBlock : List Nat := hdrBlock ++ inputTermBlock ++ inputTermBlock

/-- The topology the parser returns for `duplicateIdBlock`. -/
def duplicateIdTopo : Topology :=
  { header := ⟨272, 0, 0, []⟩
    units := []
    inputs := [⟨1, 256, none, 0, .other⟩, ⟨1, 256, none, 0, .other⟩]
    outputs := [] }

/-- A streaming block holding a single OUTPUT_HEADER (subtype 0x02)
descriptor and nothing else. -/
def outputHeaderBlock : List Nat := [4, 36, 2, 0]

/-- A minimal INPUT_HEADER streaming block: zero formats, bulk endpoint
0x81, terminal link 1. -/
def inputHeaderBlock : List Nat := [13, 36, 1, 0, 0, 0, 0x81, 0, 1, 0, 0, 0, 0]

/-- The streaming interface the parser returns for `inputHeaderBlock`
on interface number 7. -/
def inputHeaderDesc : StreamingInterfaceDesc :=
  { id := 7
    kind := .input
      { num_formats := 0, total_length := 0, endpoint_address := 0x81, info := 0
        terminal_link := 1, still_capture_method := .none
        trigger_support := .notSupported
        trigger_usage := .initiateStillImageCapture, format_controls := [] }
    formats := []
    frames := [] }

/-- A transport that times out on the first attempt and succeeds on the
second. -/
def timeoutThenOk {α : Type} (_ : α) (attempt : Nat) : Except RusbError Nat :=
  if attempt = 0 then .error .timeout else .ok 0

/-- A transport that times out on every attempt. -/
def alwaysTimeout {α : Type} (_ : α) (_ : Nat) : Except RusbError Nat :=
  .error .timeout

/-! ## Theorems -/

/-- Claim C1 counterexample: encoding the Leap-shaped probe value puts
`AC 53 01 00` at offsets 4..8 (86956 = 0x153AC), not the `6C 53 01 00`
stated by the spec scenario. -/
theorem c1_counterexample :
    ((pccEncode c1Probe).drop 4).take 4 = [0xAC, 0x53, 0x01, 0x00] ∧
    ((pccEncode c1Probe).drop 4).take 4 ≠ [0x6C, 0x53, 0x01, 0x00] := by
  decide

/-- Claim C1, amended: the `ProbeCommitControls` value used by stream
negotiation encodes to exactly 26 little-endian bytes with the UVC 1.1+
trailing fields omitted; encoding the value with `bFormatIndex = 1`,
`bFrameIndex = 2`, `dwFrameInterval = 86956` and all other fields zero
yields a 26-byte buffer whose bytes at offsets 2 and 3 are `01 02` and
whose bytes at offsets 4..8 are `AC 53 01 00`, and decoding that buffer
yields back the original value. -/
theorem c1_probe_roundtrip :
    (pccEncode c1Probe).length = 26 ∧
    (pccEncode c1Probe).getD 2 0 = 0x01 ∧
    (pccEncode c1Probe).getD 3 0 = 0x02 ∧
    ((pccEncode c1Probe).drop 4).take 4 = [0xAC, 0x53, 0x01, 0x00] ∧
    pccDecode (pccEncode c1Probe) = some c1Probe := by
  decide

/-- Claim C4: for every `ControlValue` carrier type and every value
representable on the wire, decoding the encoding yields the value back.
The carriers are, in source order: `bool`, `u8`, `i8`, `u16`, `i16`,
`u32`, `PowerLineFrequency`, `WhiteBalanceComponents`,
`AutoExposureMode`, `ExposureTimeAbs`, `FocusRel`, `FocusSimple` and
`ProbeCommitControls`. -/
theorem c4_control_value_roundtrip :
    (∀ b : Bool, boolDecode (boolEncode b) = b) ∧
    (∀ n : Nat, n < 256 → u8Decode (u8Encode n) = n) ∧
    (∀ x : Int, -128 ≤ x → x < 128 → i8Decode (i8Encode x) = x) ∧
    (∀ n : Nat, n < 65536 → u16Decode (u16Encode n) = n) ∧
    (∀ x : Int, -32768 ≤ x → x < 32768 → i16Decode (i16Encode x) = x) ∧
    (∀ n : Nat, n < 4294967296 → u32Decode (u32Encode n) = n) ∧
    (∀ p : PowerLineFrequency, plfDecode (plfEncode p) = p) ∧
    (∀ w : WhiteBalanceComponents, w.blue < 65536 → w.red < 65536 →
      wbcDecode (wbcEncode w) = w) ∧
    (∀ v : Nat, v &&& autoExposureModeMask = v → aemDecode (aemEncode v) = v) ∧
    (∀ e : ExposureTimeAbs, e.units < 4294967296 → etaDecode (etaEncode e) = e) ∧
    (∀ f : FocusRel, -128 ≤ f.focus_rel → f.focus_rel < 128 → f.speed < 256 →
      focusRelDecode (focusRelEncode f) = f) ∧
    (∀ f : FocusSimple, fsDecode (fsEncode f) = f) ∧
    (∀ p : ProbeCommitControls, pccWf p → pccDecode (pccEncode p) = some p) := by
  refine ⟨?_, ?_, ?_, ?_, ?_, ?_, ?_, ?_, ?_, ?_, ?_, ?_, ?_⟩
  · intro b; cases b <;> rfl
  · intro n _; rfl
  · intro x h1 h2
    show (if (x % 256).toNat < 128 then ((x % 256).toNat : Int)
      else ((x % 256).toNat : Int) - 256) = x
    split <;> omega
  · intro n h
    show n % 256 + 256 * (n / 256 % 256) = n
    omega
  · intro x h1 h2
    show (if (x % 65536).toNat % 256 + 256 * ((x % 65536).toNat / 256 % 256) < 32768
      then (((x % 65536).toNat % 256 + 256 * ((x % 65536).toNat / 256 % 256) : Nat) : Int)
      else (((x % 65536).toNat % 256 + 256 * ((x % 65536).toNat / 256 % 256) : Nat) : Int)
        - 65536) = x
    split <;> omega
  · intro n h
    show n % 256 + 256 * (n / 256 % 256) + 65536 * (n / 65536 % 256) +
      16777216 * (n / 16777216 % 256) = n
    omega
  · intro p; cases p <;> rfl
  · intro w h1 h2
    cases w with
    | mk blue red =>
      dsimp only at h1 h2
      show WhiteBalanceComponents.mk (blue % 256 + 256 * (blue / 256 % 256))
        (red % 256 + 256 * (red / 256 % 256)) = ⟨blue, red⟩
      have eb : blue % 256 + 256 * (blue / 256 % 256) = blue := by omega
      have er : red % 256 + 256 * (red / 256 % 256) = red := by omega
      rw [eb, er]
  · intro v h; exact h
  · intro e h
    cases e with
    | mk u =>
      dsimp only at h
      show ExposureTimeAbs.mk (u % 256 + 256 * (u / 256 % 256) +
        65536 * (u / 65536 % 256) + 16777216 * (u / 16777216 % 256)) = ⟨u⟩
      have eu : u % 256 + 256 * (u / 256 % 256) +
        65536 * (u / 65536 % 256) + 16777216 * (u / 16777216 % 256) = u := by omega
      rw [eu]
  · intro f h1 h2 h3
    cases f with
    | mk fr sp =>
      dsimp only at h1 h2 h3
      show FocusRel.mk (if (fr % 256).toNat < 128 then ((fr % 256).toNat : Int)
        else ((fr % 256).toNat : Int) - 256) sp = ⟨fr, sp⟩
      have ef : (if (fr % 256).toNat < 128 then ((fr % 256).toNat : Int)
        else ((fr % 256).toNat : Int) - 256) = fr := by split <;> omega
      rw [ef]
  · intro f; cases f <;> rfl
  · intro p hp
    cases p with
    | mk f1 f2 f3 f4 f5 f6 f7 f8 f9 f10 f11 =>
      obtain ⟨h1, h2, h3, h4, h5, h6, h7, h8, h9, h10, h11⟩ := hp
      dsimp only at h1 h2 h3 h4 h5 h6 h7 h8 h9 h10 h11
      have hred : pccDecode (pccEncode ⟨f1, f2, f3, f4, f5, f6, f7, f8, f9, f10, f11⟩) =
        some ⟨f1 % 256 + 256 * (f1 / 256 % 256), f2, f3,
          f4 % 256 + 256 * (f4 / 256 % 256) + 65536 * (f4 / 65536 % 256) +
            16777216 * (f4 / 16777216 % 256),
          f5 % 256 + 256 * (f5 / 256 % 256),
          f6 % 256 + 256 * (f6 / 256 % 256),
          f7 % 256 + 256 * (f7 / 256 % 256),
          f8 % 256 + 256 * (f8 / 256 % 256),
          f9 % 256 + 256 * (f9 / 256 % 256),
          f10 % 256 + 256 * (f10 / 256 % 256) + 65536 * (f10 / 65536 % 256) +
            16777216 * (f10 / 16777216 % 256),
          f11 % 256 + 256 * (f11 / 256 % 256) + 65536 * (f11 / 65536 % 256) +
            16777216 * (f11 / 16777216 % 256)⟩ := rfl
      rw [hred]
      have e1 : f1 % 256 + 256 * (f1 / 256 % 256) = f1 := by omega
      have e4 : f4 % 256 + 256 * (f4 / 256 % 256) + 65536 * (f4 / 65536 % 256) +
        16777216 * (f4 / 16777216 % 256) = f4 := by omega
      have e5 : f5 % 256 + 256 * (f5 / 256 % 256) = f5 := by omega
      have e6 : f6 % 256 + 256 * (f6 / 256 % 256) = f6 := by omega
      have e7 : f7 % 256 + 256 * (f7 / 256 % 256) = f7 := by omega
      have e8 : f8 % 256 + 256 * (f8 / 256 % 256) = f8 := by omega
      have e9 : f9 % 256 + 256 * (f9 / 256 % 256) = f9 := by omega
      have e10 : f10 % 256 + 256 * (f10 / 256 % 256) + 65536 * (f10 / 65536 % 256) +
        16777216 * (f10 / 16777216 % 256) = f10 := by omega
      have e11 : f11 % 256 + 256 * (f11 / 256 % 256) + 65536 * (f11 / 65536 % 256) +
        16777216 * (f11 / 16777216 % 256) = f11 := by omega
      rw [e1, e4, e5, e6, e7, e8, e9, e10, e11]

/-- Claim C4 witness: the round-trip laws evaluated at concrete
representable values of each carrier. -/
theorem c4_witness :
    boolDecode (boolEncode true) = true ∧
    ((200 : Nat) < 256 ∧ u8Decode (u8Encode 200) = 200) ∧
    ((-128 : Int) ≤ -5 ∧ (-5 : Int) < 128 ∧ i8Decode (i8Encode (-5)) = -5) ∧
    ((40000 : Nat) < 65536 ∧ u16Decode (u16Encode 40000) = 40000) ∧
    ((-32768 : Int) ≤ -1 ∧ (-1 : Int) < 32768 ∧ i16Decode (i16Encode (-1)) = -1) ∧
    ((86956 : Nat) < 4294967296 ∧ u32Decode (u32Encode 86956) = 86956) ∧
    plfDecode (plfEncode .freq50Hz) = .freq50Hz ∧
    ((3 : Nat) < 65536 ∧ (65535 : Nat) < 65536 ∧
      wbcDecode (wbcEncode ⟨3, 65535⟩) = ⟨3, 65535⟩) ∧
    ((9 : Nat) &&& autoExposureModeMask = 9 ∧ aemDecode (aemEncode 9) = 9) ∧
    ((123456 : Nat) < 4294967296 ∧ etaDecode (etaEncode ⟨123456⟩) = ⟨123456⟩) ∧
    ((-128 : Int) ≤ -2 ∧ (-2 : Int) < 128 ∧ (7 : Nat) < 256 ∧
      focusRelDecode (focusRelEncode ⟨-2, 7⟩) = ⟨-2, 7⟩) ∧
    fsDecode (fsEncode .people) = .people ∧
    (pccWf c1Probe ∧ pccDecode (pccEncode c1Probe) = some c1Probe) := by
  refine ⟨c4_control_value_roundtrip.1 true,
    ⟨by decide, c4_control_value_roundtrip.2.1 200 (by decide)⟩,
    ⟨by decide, by decide, c4_control_value_roundtrip.2.2.1 (-5) (by decide) (by decide)⟩,
    ⟨by decide, c4_control_value_roundtrip.2.2.2.1 40000 (by decide)⟩,
    ⟨by decide, by decide,
      c4_control_value_roundtrip.2.2.2.2.1 (-1) (by decide) (by decide)⟩,
    ⟨by decide, c4_control_value_roundtrip.2.2.2.2.2.1 86956 (by decide)⟩,
    c4_control_value_roundtrip.2.2.2.2.2.2.1 .freq50Hz,
    ⟨by decide, by decide,
      c4_control_value_roundtrip.2.2.2.2.2.2.2.1 ⟨3, 65535⟩ (by decide) (by decide)⟩,
    ⟨by decide, c4_control_value_roundtrip.2.2.2.2.2.2.2.2.1 9 (by decide)⟩,
    ⟨by decide, c4_control_value_roundtrip.2.2.2.2.2.2.2.2.2.1 ⟨123456⟩ (by decide)⟩,
    ⟨by decide, by decide, by decide,
      c4_control_value_roundtrip.2.2.2.2.2.2.2.2.2.2.1 ⟨-2, 7⟩ (by decide) (by decide)
        (by decide)⟩,
    c4_control_value_roundtrip.2.2.2.2.2.2.2.2.2.2.2.1 .people,
    ⟨by unfold pccWf; decide,
      c4_control_value_roundtrip.2.2.2.2.2.2.2.2.2.2.2.2 c1Probe (by unfold pccWf; decide)⟩⟩

/-- Claim C8: a USB timeout on the first attempt of any control or bulk
transfer is retried exactly once.  A first-attempt success is returned
directly with a single attempt, at most two attempts are ever made, a
success on the retry yields that success, and a second timeout surfaces
as a transport error tagged with the action in progress
(`WritingControl` for control-out, `ReadingControl` for control-in,
`StreamRead` for bulk stream reads). -/
theorem c8_timeout_retry :
    (∀ (α : Type) (cb : Nat → Except Error α) (v : α), cb 0 = .ok v →
      withUsb cb = .ok v ∧ withUsbAttempts cb = 1) ∧
    (∀ (α : Type) (cb : Nat → Except Error α), withUsbAttempts cb ≤ 2) ∧
    (∀ (tr : ControlOut → Nat → Except RusbError Nat) (i e cs : Nat)
        (d : List Nat) (n : Nat),
      tr (setInterfaceEntityTransfer i e cs d) 0 = .error .timeout →
      tr (setInterfaceEntityTransfer i e cs d) 1 = .ok n →
      setInterfaceEntity tr i e cs d = .ok ()) ∧
    (∀ (tr : ControlOut → Nat → Except RusbError Nat) (i e cs : Nat)
        (d : List Nat),
      tr (setInterfaceEntityTransfer i e cs d) 0 = .error .timeout →
      tr (setInterfaceEntityTransfer i e cs d) 1 = .error .timeout →
      setInterfaceEntity tr i e cs d =
        .error ⟨some .writingControl, .rusb .timeout⟩) ∧
    (∀ (tr : ControlIn → Nat → Except RusbError Nat) (i e rq cs : Nat)
        (n : Nat),
      tr (readInterfaceEntityTransfer i e rq cs) 0 = .error .timeout →
      tr (readInterfaceEntityTransfer i e rq cs) 1 = .ok n →
      readInterfaceEntity tr i e rq cs = .ok ()) ∧
    (∀ (tr : ControlIn → Nat → Except RusbError Nat) (i e rq cs : Nat),
      tr (readInterfaceEntityTransfer i e rq cs) 0 = .error .timeout →
      tr (readInterfaceEntityTransfer i e rq cs) 1 = .error .timeout →
      readInterfaceEntity tr i e rq cs =
        .error ⟨some .readingControl, .rusb .timeout⟩) ∧
    (∀ (tr : Nat → Nat → Except RusbError Nat) (ep n : Nat),
      tr ep 0 = .error .timeout → tr ep 1 = .ok n →
      streamRead tr ep = .ok n) ∧
    (∀ (tr : Nat → Nat → Except RusbError Nat) (ep : Nat),
      tr ep 0 = .error .timeout → tr ep 1 = .error .timeout →
      streamRead tr ep = .error ⟨some .streamRead, .rusb .timeout⟩) := by
  refine ⟨?_, ?_, ?_, ?_, ?_, ?_, ?_, ?_⟩
  · intro α cb v h
    constructor
    · simp [withUsb, h]
    · simp [withUsbAttempts, h]
  · intro α cb
    cases h : cb 0 with
    | error e => simp only [withUsbAttempts, h]; split <;> omega
    | ok v => simp [withUsbAttempts, h]
  · intro tr i e cs d n h0 h1
    simp [setInterfaceEntity, withUsb, during, h0, h1, Error.isUsbTimeout]
  · intro tr i e cs d h0 h1
    simp [setInterfaceEntity, withUsb, during, h0, h1, Error.isUsbTimeout]
  · intro tr i e rq cs n h0 h1
    simp [readInterfaceEntity, withUsb, during, h0, h1, Error.isUsbTimeout]
  · intro tr i e rq cs h0 h1
    simp [readInterfaceEntity, withUsb, during, h0, h1, Error.isUsbTimeout]
  · intro tr ep n h0 h1
    simp [streamRead, withUsb, during, h0, h1, Error.isUsbTimeout]
  · intro tr ep h0 h1
    simp [streamRead, withUsb, during, h0, h1, Error.isUsbTimeout]

/-- Claim C8 witness: the retry behavior at the concrete
timeout-then-success and always-timeout transports. -/
theorem c8_witness :
    (timeoutThenOk (setInterfaceEntityTransfer 1 3 2 [0, 0]) 0 =
        .error .timeout ∧
      timeoutThenOk (setInterfaceEntityTransfer 1 3 2 [0, 0]) 1 = .ok 0 ∧
      setInterfaceEntity timeoutThenOk 1 3 2 [0, 0] = .ok ()) ∧
    (alwaysTimeout (setInterfaceEntityTransfer 1 3 2 [0, 0]) 0 =
        .error .timeout ∧
      setInterfaceEntity alwaysTimeout 1 3 2 [0, 0] =
        .error ⟨some .writingControl, .rusb .timeout⟩) ∧
    readInterfaceEntity alwaysTimeout 1 3 0x81 2 =
      .error ⟨some .readingControl, .rusb .timeout⟩ ∧
    streamRead alwaysTimeout 0x81 =
      .error ⟨some .streamRead, .rusb .timeout⟩ :=
  ⟨⟨rfl, rfl, c8_timeout_retry.2.2.1 timeoutThenOk 1 3 2 [0, 0] 0 rfl rfl⟩,
    ⟨rfl, c8_timeout_retry.2.2.2.1 alwaysTimeout 1 3 2 [0, 0] rfl rfl⟩,
    c8_timeout_retry.2.2.2.2.2.1 alwaysTimeout 1 3 0x81 2 rfl rfl,
    c8_timeout_retry.2.2.2.2.2.2.2 alwaysTimeout 0x81 rfl rfl⟩

/-- Claim C9: an entity SET_CUR with entity id `e`, control selector
`cs`, interface number `i` and encoded payload `p` issues a control-out
transfer with `bmRequestType = 0x21`, `bRequest = 0x01`,
`wValue = cs << 8`, `wIndex = e << 8 | i` and data `p`; in particular
SET_CUR on processing unit 3, control Brightness (cs 0x02), value
`i16 = -1`, interface 1 gives `wValue = 0x0200`, `wIndex = 0x0301`,
data `FF FF`. -/
theorem c9_set_cur_wire_layout :
    (∀ (i e cs : Nat) (p : List Nat), i < 256 → e < 256 → cs < 256 →
      setInterfaceEntityTransfer i e cs p =
        ⟨0x21, 0x01, cs <<< 8, e <<< 8 ||| i, p⟩) ∧
    setInterfaceEntityTransfer 1 3 0x02 (i16Encode (-1)) =
      ⟨0x21, 0x01, 0x0200, 0x0301, [0xFF, 0xFF]⟩ := by
  constructor
  · intro i e cs p _ _ _; rfl
  · decide

/-- Claim C9 witness: the general layout law instantiated at interface
1, entity 3, selector 2 and the encoded `i16 = -1` payload. -/
theorem c9_witness :
    ((1 : Nat) < 256 ∧ (3 : Nat) < 256 ∧ (2 : Nat) < 256) ∧
    setInterfaceEntityTransfer 1 3 2 (i16Encode (-1)) =
      ⟨0x21, 0x01, 2 <<< 8, 3 <<< 8 ||| 1, i16Encode (-1)⟩ :=
  ⟨⟨by decide, by decide, by decide⟩,
    c9_set_cur_wire_layout.1 1 3 2 (i16Encode (-1)) (by decide) (by decide)
      (by decide)⟩

/-! ### Invariant lemmas for the control descriptor parser -/

/-- A successful non-zero id read returns a non-zero byte. -/
theorem readNonzeroId_ne {msg : String} {l r : List Nat} {v : Nat}
    (h : readNonzeroId msg l = .ok (v, r)) : v ≠ 0 := by
  unfold readNonzeroId at h
  split at h
  · exact absurd h (by simp)
  · split at h
    · exact absurd h (by simp)
    · next hb =>
      injection h with h
      injection h with h1 h2
      subst h1
      exact hb

/-- Every element of a successful counted non-zero-id read is non-zero. -/
theorem readCount_nonzero {msg : String} : ∀ {n : Nat} {l r : List Nat} {vs : List Nat},
    readCount (readNonzeroId msg) n l = .ok (vs, r) → ∀ v ∈ vs, v ≠ 0 := by
  intro n
  induction n with
  | zero =>
    intro l r vs h v hv
    unfold readCount at h
    injection h with h
    injection h with h1 h2
    subst h1
    simp at hv
  | succ k ih =>
    intro l r vs h v hv
    unfold readCount at h
    split at h
    · exact absurd h (by simp)
    · split at h
      · exact absurd h (by simp)
      · injection h with h
        injection h with h1 h2
        subst h1
        rcases List.mem_cons.mp hv with hveq | hvmem
        · subst hveq; exact readNonzeroId_ne (by assumption)
        · exact ih (by assumption) v hvmem

/-- The HEADER branch leaves the entity lists untouched. -/
theorem parseHeaderD_fields {st st2 : CtrlState} {raw : List Nat}
    (h : parseHeaderD st raw = .ok st2) :
    st2.units = st.units ∧ st2.inputs = st.inputs ∧ st2.outputs = st.outputs := by
  unfold parseHeaderD at h
  repeat' split at h
  all_goals first
    | (injection h with h; subst h; exact ⟨rfl, rfl, rfl⟩)
    | simp at h

/-- The INPUT_TERM branch appends one input terminal whose identifier
came from a non-zero id read. -/
theorem parseInputTermD_fields {st st2 : CtrlState} {raw : List Nat}
    (h : parseInputTermD st raw = .ok st2) :
    st2.units = st.units ∧ st2.outputs = st.outputs ∧
    ∃ t, st2.inputs = st.inputs ++ [t] ∧ t.term_id ≠ 0 := by
  unfold parseInputTermD at h
  repeat' split at h
  all_goals first
    | (injection h with h; subst h;
       exact ⟨rfl, rfl, _, rfl, readNonzeroId_ne (by assumption)⟩)
    | simp at h

/-- The OUTPUT_TERMINAL branch appends one output terminal with non-zero
id and non-zero source. -/
theorem parseOutputTermD_fields {st st2 : CtrlState} {raw : List Nat}
    (h : parseOutputTermD st raw = .ok st2) :
    st2.units = st.units ∧ st2.inputs = st.inputs ∧
    ∃ t, st2.outputs = st.outputs ++ [t] ∧ t.term_id ≠ 0 ∧ t.source ≠ 0 := by
  unfold parseOutputTermD at h
  repeat' split at h
  all_goals first
    | (injection h with h; subst h;
       exact ⟨rfl, rfl, _, rfl, readNonzeroId_ne (by assumption),
         readNonzeroId_ne (by assumption)⟩)
    | simp at h

/-- The SELECTOR_UNIT branch appends one selector unit with non-zero id
and non-zero sources. -/
theorem parseSelectorD_fields {st st2 : CtrlState} {raw : List Nat}
    (h : parseSelectorD st raw = .ok st2) :
    st2.inputs = st.inputs ∧ st2.outputs = st.outputs ∧
    ∃ uid srcs, st2.units = st.units ++ [⟨.selector ⟨uid, srcs⟩⟩] ∧
      uid ≠ 0 ∧ ∀ s ∈ srcs, s ≠ 0 := by
  unfold parseSelectorD at h
  repeat' split at h
  all_goals first
    | (injection h with h; subst h;
       exact ⟨rfl, rfl, _, _, rfl, readNonzeroId_ne (by assumption),
         readCount_nonzero (by assumption)⟩)
    | simp at h

/-- The PROCESSING_UNIT branch appends one processing unit with non-zero
id and non-zero source. -/
theorem parseProcessingD_fields {st st2 : CtrlState} {raw : List Nat}
    (h : parseProcessingD st raw = .ok st2) :
    st2.inputs = st.inputs ∧ st2.outputs = st.outputs ∧
    ∃ uid src mm c str stds,
      st2.units = st.units ++ [⟨.processing ⟨uid, src, mm, c, str, stds⟩⟩] ∧
      uid ≠ 0 ∧ src ≠ 0 := by
  unfold parseProcessingD at h
  repeat' split at h
  all_goals first
    | (injection h with h; subst h;
       exact ⟨rfl, rfl, _, _, _, _, _, _, rfl, readNonzeroId_ne (by assumption),
         readNonzeroId_ne (by assumption)⟩)
    | simp at h

/-- The EXTENSION_UNIT branch appends one extension unit with non-zero
id and non-zero sources. -/
theorem parseExtensionD_fields {st st2 : CtrlState} {raw : List Nat}
    (h : parseExtensionD st raw = .ok st2) :
    st2.inputs = st.inputs ∧ st2.outputs = st.outputs ∧
    ∃ uid guid nc srcs bm,
      st2.units = st.units ++ [⟨.extension ⟨uid, guid, nc, srcs, bm⟩⟩] ∧
      uid ≠ 0 ∧ ∀ s ∈ srcs, s ≠ 0 := by
  unfold parseExtensionD at h
  repeat' split at h
  all_goals first
    | (injection h with h; subst h;
       exact ⟨rfl, rfl, _, _, _, _, _, rfl, readNonzeroId_ne (by assumption),
         readCount_nonzero (by assumption)⟩)
    | simp at h

/-- Unchanged entity lists preserve the state invariant. -/
theorem stOk_of_fields {st st2 : CtrlState} (hu : st2.units = st.units)
    (hi : st2.inputs = st.inputs) (ho : st2.outputs = st.outputs)
    (hok : stOk st) : stOk st2 := by
  unfold stOk stIds stSources at hok ⊢
  rw [hu, hi, ho]
  exact hok

/-- Appending an input terminal with non-zero id preserves the
invariant. -/
theorem stOk_push_input {st : CtrlState} {t : InputTerminalDesc}
    (ht : t.term_id ≠ 0) (hok : stOk st) :
    stOk { st with inputs := st.inputs ++ [t] } := by
  unfold stOk stIds stSources at hok ⊢
  simp only [List.map_append, List.map_cons, List.map_nil, List.forall_mem_append,
    List.forall_mem_cons, List.forall_mem_nil, and_true] at hok ⊢
  tauto

/-- Appending an output terminal with non-zero id and source preserves
the invariant. -/
theorem stOk_push_output {st : CtrlState} {t : OutputTerminalDesc}
    (ht : t.term_id ≠ 0) (hs : t.source ≠ 0) (hok : stOk st) :
    stOk { st with outputs := st.outputs ++ [t] } := by
  unfold stOk stIds stSources at hok ⊢
  simp only [List.map_append, List.map_cons, List.map_nil, List.forall_mem_append,
    List.forall_mem_cons, List.forall_mem_nil, and_true] at hok ⊢
  tauto

/-- Appending a unit whose id and sources are non-zero preserves the
invariant. -/
theorem stOk_push_unit {st : CtrlState} {u : UnitDesc}
    (hu : unitIdOf u ≠ 0) (hs : ∀ s ∈ unitSourcesOf u, s ≠ 0) (hok : stOk st) :
    stOk { st with units := st.units ++ [u] } := by
  unfold stOk stIds stSources at hok ⊢
  simp only [List.map_append, List.map_cons, List.map_nil, List.flatten_append,
    List.flatten_cons, List.flatten_nil, List.append_nil, List.forall_mem_append,
    List.forall_mem_cons, List.forall_mem_nil, and_true] at hok ⊢
  tauto

/-- One successful descriptor parse preserves the invariant. -/
theorem parseCtrlImpl_stOk {st st2 : CtrlState} {raw : List Nat}
    (h : parseCtrlImpl st raw = .ok st2) (hok : stOk st) : stOk st2 := by
  unfold parseCtrlImpl at h
  split at h
  · exact absurd h (by simp)
  · split at h
    · obtain ⟨hu, hi, ho⟩ := parseHeaderD_fields h
      exact stOk_of_fields hu hi ho hok
    · obtain ⟨hu, ho, t, hi, ht⟩ := parseInputTermD_fields h
      cases st2
      dsimp only at hu hi ho
      subst hu; subst hi; subst ho
      exact stOk_push_input ht hok
    · obtain ⟨hu, hi, t, ho, ht, hs⟩ := parseOutputTermD_fields h
      cases st2
      dsimp only at hu hi ho
      subst hu; subst hi; subst ho
      exact stOk_push_output ht hs hok
    · obtain ⟨hi, ho, uid, srcs, hu, hid, hs⟩ := parseSelectorD_fields h
      cases st2
      dsimp only at hu hi ho
      subst hu; subst hi; subst ho
      exact stOk_push_unit (by simpa [unitIdOf]) (by simpa [unitSourcesOf]) hok
    · obtain ⟨hi, ho, uid, src, mm, c, str, stds, hu, hid, hs⟩ := parseProcessingD_fields h
      cases st2
      dsimp only at hu hi ho
      subst hu; subst hi; subst ho
      exact stOk_push_unit (by simpa [unitIdOf]) (by simp [unitSourcesOf, hs]) hok
    · obtain ⟨hi, ho, uid, guid, nc, srcs, bm, hu, hid, hs⟩ := parseExtensionD_fields h
      cases st2
      dsimp only at hu hi ho
      subst hu; subst hi; subst ho
      exact stOk_push_unit (by simpa [unitIdOf]) (by simpa [unitSourcesOf]) hok
    · exact absurd h (by simp)
    · exact absurd h (by simp)

/-- The retry wrapper preserves the invariant. -/
theorem parseCtrlDescriptor_stOk {st st2 : CtrlState} {raw : List Nat}
    (h : parseCtrlDescriptor st raw = .ok st2) (hok : stOk st) : stOk st2 := by
  unfold parseCtrlDescriptor at h
  split at h
  · exact parseCtrlImpl_stOk h hok
  · exact parseCtrlImpl_stOk h hok

/-- Finishing with the invariant yields non-zero ids and sources in the
topology. -/
theorem finishCtrl_ok {st : CtrlState} {t : Topology}
    (h : finishCtrl st = .ok t) (hok : stOk st) :
    (∀ i ∈ idsOf t, i ≠ 0) ∧ (∀ s ∈ sourceIdsOf t, s ≠ 0) := by
  unfold finishCtrl at h
  split at h
  · injection h with h
    subst h
    exact hok
  · exact absurd h (by simp)

/-- The split loop preserves the invariant into any topology it
returns. -/
theorem ctrlLoop_stOk : ∀ (fuel : Nat) (raw : List Nat) (st : CtrlState) (t : Topology),
    stOk st → ctrlLoop fuel raw st = .ok t →
    (∀ i ∈ idsOf t, i ≠ 0) ∧ (∀ s ∈ sourceIdsOf t, s ≠ 0) := by
  intro fuel
  induction fuel with
  | zero =>
    intro raw st t _ h
    exact absurd h (by simp [ctrlLoop])
  | succ n ih =>
    intro raw st t hok h
    match raw with
    | [] => exact finishCtrl_ok h hok
    | [x] => exact finishCtrl_ok h hok
    | len :: ty :: rest =>
      simp only [ctrlLoop] at h
      split at h
      · exact finishCtrl_ok h hok
      · split at h
        · split at h
          · exact absurd h (by simp)
          · split at h
            · next st2 heq =>
              exact ih _ st2 t (parseCtrlDescriptor_stOk heq hok) h
            · exact absurd h (by simp)
        · exact ih _ st t hok h

/-- Claim C2 counterexample: the block with an output terminal whose
`bSourceID` is 5 parses successfully even though no entity 5 exists, so
the resolution invariant fails on a parser output. -/
theorem c2_counterexample :
    parseControlDesc danglingOutputBlock = .ok danglingOutputTopo ∧
    allSourcesResolve danglingOutputTopo = false := by
  constructor
  · rfl
  · decide

/-- Claim C2, amended: every `SourceId` stored in a parsed topology is
non-zero, and a zero `bSourceID` byte in an entity descriptor makes the
parser fail; but the parser does not check that a `SourceId` resolves to
an entity of the topology, so dangling references are accepted. -/
theorem c2_sources_nonzero :
    (∀ (raw : List Nat) (t : Topology), parseControlDesc raw = .ok t →
      ∀ s ∈ sourceIdsOf t, s ≠ 0) ∧
    (∀ tt1 tt2 a str : Nat,
      parseControlDesc (hdrBlock ++ [9, 36, 3, 1, tt1, tt2, a, 0, str]) = .fail) := by
  constructor
  · intro raw t h
    exact (ctrlLoop_stOk (raw.length + 1) raw ctrlState0 t
      (by simp [stOk, stIds, stSources, ctrlState0]) h).2
  · intro tt1 tt2 a str
    rfl

/-- Claim C2 witness: the non-zero-source law applied to the parsed
dangling-source block. -/
theorem c2_witness :
    parseControlDesc danglingOutputBlock = .ok danglingOutputTopo ∧
    ∀ s ∈ sourceIdsOf danglingOutputTopo, s ≠ 0 :=
  ⟨rfl, c2_sources_nonzero.1 danglingOutputBlock danglingOutputTopo rfl⟩

/-- Claim C3 counterexample: a block declaring terminal id 1 twice
parses successfully, so identifier uniqueness fails on a parser
output. -/
theorem c3_counterexample :
    parseControlDesc duplicateIdBlock = .ok duplicateIdTopo ∧
    allIdsUnique duplicateIdTopo = false := by
  constructor
  · rfl
  · decide

/-- Claim C3, amended: every terminal and unit identifier in a parsed
topology is non-zero, and a zero id byte in an entity descriptor makes
the parser fail; but the parser does not check uniqueness, so duplicated
identifiers are accepted. -/
theorem c3_ids_nonzero :
    (∀ (raw : List Nat) (t : Topology), parseControlDesc raw = .ok t →
      ∀ i ∈ idsOf t, i ≠ 0) ∧
    (∀ tt1 tt2 a str : Nat,
      parseControlDesc (hdrBlock ++ [8, 36, 2, 0, tt1, tt2, a, str]) = .fail) := by
  constructor
  · intro raw t h
    exact (ctrlLoop_stOk (raw.length + 1) raw ctrlState0 t
      (by simp [stOk, stIds, stSources, ctrlState0]) h).1
  · intro tt1 tt2 a str
    rfl

/-- Claim C3 witness: the non-zero-id law applied to the parsed
duplicate-id block. -/
theorem c3_witness :
    parseControlDesc duplicateIdBlock = .ok duplicateIdTopo ∧
    ∀ i ∈ idsOf duplicateIdTopo, i ≠ 0 :=
  ⟨rfl, c3_ids_nonzero.1 duplicateIdBlock duplicateIdTopo rfl⟩

/-! ### Streaming parser: the output header is never produced -/

/-- The INPUT_HEADER branch does not touch `out_header`. -/
theorem parseInputHeaderD_out {st st2 : StreamState} {raw : List Nat}
    (h : parseInputHeaderD st raw = .ok st2) : st2.out_header = st.out_header := by
  unfold parseInputHeaderD at h
  repeat' split at h
  all_goals first
    | (injection h with h; subst h; rfl)
    | simp at h

/-- The FORMAT_UNCOMPRESSED branch does not touch `out_header`. -/
theorem parseFormatUncompressedD_out {st st2 : StreamState} {raw : List Nat}
    (h : parseFormatUncompressedD st raw = .ok st2) : st2.out_header = st.out_header := by
  unfold parseFormatUncompressedD at h
  repeat' split at h
  all_goals first
    | (injection h with h; subst h; rfl)
    | simp at h

/-- The FRAME_UNCOMPRESSED branch does not touch `out_header`. -/
theorem parseFrameUncompressedD_out {st st2 : StreamState} {raw : List Nat}
    (h : parseFrameUncompressedD st raw = .ok st2) : st2.out_header = st.out_header := by
  unfold parseFrameUncompressedD at h
  repeat' split at h
  all_goals first
    | (injection h with h; subst h; rfl)
    | simp at h

/-- No branch of the streaming descriptor dispatcher ever sets
`out_header` (OUTPUT_HEADER descriptors are rejected as unimplemented). -/
theorem parseStreamImpl_out {st st2 : StreamState} {raw : List Nat}
    (h : parseStreamImpl st raw = .ok st2) : st2.out_header = st.out_header := by
  unfold parseStreamImpl at h
  split at h
  · simp at h
  · split at h
    all_goals first
      | exact parseInputHeaderD_out h
      | exact parseFormatUncompressedD_out h
      | exact parseFrameUncompressedD_out h
      | simp at h

/-- The retry wrapper does not touch `out_header` either. -/
theorem parseStreamDescriptor_out {st st2 : StreamState} {raw : List Nat}
    (h : parseStreamDescriptor st raw = .ok st2) : st2.out_header = st.out_header := by
  unfold parseStreamDescriptor at h
  split at h
  · exact parseStreamImpl_out h
  · exact parseStreamImpl_out h

/-- Finishing with no output header yields an Input-kind interface. -/
theorem finishStream_input {ifc : Nat} {st : StreamState} {d : StreamingInterfaceDesc}
    (hout : st.out_header = none) (h : finishStream ifc st = .ok d) :
    isInputKind d.kind = true := by
  unfold finishStream at h
  split at h
  all_goals first
    | (injection h with h; subst h; rfl)
    | simp_all

/-- The streaming split loop keeps `out_header` empty, so any interface
it returns is of Input kind. -/
theorem streamLoop_input (ifc : Nat) : ∀ (fuel : Nat) (raw : List Nat)
    (st : StreamState) (d : StreamingInterfaceDesc),
    st.out_header = none → streamLoop ifc fuel raw st = .ok d →
    isInputKind d.kind = true := by
  intro fuel
  induction fuel with
  | zero =>
    intro raw st d _ h
    exact absurd h (by simp [streamLoop])
  | succ n ih =>
    intro raw st d hout h
    match raw with
    | [] => exact finishStream_input hout h
    | [x] => exact finishStream_input hout h
    | len :: ty :: rest =>
      simp only [streamLoop] at h
      split at h
      · exact finishStream_input hout h
      · split at h
        · split at h
          · exact absurd h (by simp)
          · split at h
            · next st2 heq =>
              exact ih _ st2 d (by rw [parseStreamDescriptor_out heq, hout]) h
            · exact absurd h (by simp)
        · exact ih _ st d hout h

/-- Claim C5 counterexample: a streaming block holding exactly one
OUTPUT_HEADER descriptor and no INPUT_HEADER is a parse error (the
subtype falls into the unimplemented branch), not an Output-kind
interface. -/
theorem c5_counterexample :
    parseStreamingDesc 1 outputHeaderBlock = .fail := by
  rfl

/-- Claim C5, amended: the streaming dispatcher detects OUTPUT_HEADER
(0x02) but treats it as unimplemented, so a block containing an
OUTPUT_HEADER descriptor is a parse error; consequently every
successfully parsed streaming interface is of Input kind, and a block
with neither header is a parse error as well. -/
theorem c5_output_header_unimplemented :
    (∀ (ifc : Nat) (raw : List Nat) (d : StreamingInterfaceDesc),
      parseStreamingDesc ifc raw = .ok d → isInputKind d.kind = true) ∧
    parseStreamingDesc 1 outputHeaderBlock = .fail ∧
    parseStreamingDesc 1 [] = .fail := by
  refine ⟨?_, rfl, rfl⟩
  intro ifc raw d h
  exact streamLoop_input ifc (raw.length + 1) raw streamState0 d rfl h

/-- Claim C5 witness: the Input-kind law applied to a minimal parsed
INPUT_HEADER block. -/
theorem c5_witness :
    parseStreamingDesc 7 inputHeaderBlock = .ok inputHeaderDesc ∧
    isInputKind inputHeaderDesc.kind = true :=
  ⟨rfl, c5_output_header_unimplemented.1 7 inputHeaderBlock inputHeaderDesc rfl⟩

/-! ### VC HEADER: exactly once -/

/-- Claim C6: the VC HEADER descriptor is exactly-once.  A block with a
single HEADER descriptor and no other entities yields a topology with
the parsed header preserved and empty unit and terminal lists; the same
block duplicated yields a parse error; an empty block (no HEADER at
all) yields a parse error. -/
theorem c6_header_exactly_once :
    (∀ v1 v2 t1 t2 f1 f2 f3 f4 i : Nat,
      v1 < 256 → v2 < 256 → t1 < 256 → t2 < 256 → f1 < 256 → f2 < 256 →
      f3 < 256 → f4 < 256 → i < 256 →
      parseControlDesc [13, 36, 1, v1, v2, t1, t2, f1, f2, f3, f4, 1, i] =
        .ok ⟨⟨v1 + 256 * v2, t1 + 256 * t2,
          f1 + 256 * f2 + 65536 * f3 + 16777216 * f4, [i]⟩, [], [], []⟩ ∧
      parseControlDesc ([13, 36, 1, v1, v2, t1, t2, f1, f2, f3, f4, 1, i] ++
          [13, 36, 1, v1, v2, t1, t2, f1, f2, f3, f4, 1, i]) = .fail) ∧
    parseControlDesc [] = .fail := by
  constructor
  · intro v1 v2 t1 t2 f1 f2 f3 f4 i _ _ _ _ _ _ _ _ _
    exact ⟨rfl, rfl⟩
  · rfl

/-- Claim C6 witness: the exactly-once law at a concrete header
(version 0x0110, total length 0x0033, clock 0x005B8D80, one streaming
interface). -/
theorem c6_witness :
    ((0x10 : Nat) < 256 ∧ (0x01 : Nat) < 256 ∧ (0x33 : Nat) < 256 ∧
      (0 : Nat) < 256 ∧ (0x80 : Nat) < 256 ∧ (0x8D : Nat) < 256 ∧
      (0x5B : Nat) < 256 ∧ (0 : Nat) < 256 ∧ (1 : Nat) < 256) ∧
    (parseControlDesc [13, 36, 1, 0x10, 0x01, 0x33, 0, 0x80, 0x8D, 0x5B, 0, 1, 1] =
        .ok ⟨⟨0x10 + 256 * 0x01, 0x33 + 256 * 0,
          0x80 + 256 * 0x8D + 65536 * 0x5B + 16777216 * 0, [1]⟩, [], [], []⟩ ∧
      parseControlDesc ([13, 36, 1, 0x10, 0x01, 0x33, 0, 0x80, 0x8D, 0x5B, 0, 1, 1] ++
          [13, 36, 1, 0x10, 0x01, 0x33, 0, 0x80, 0x8D, 0x5B, 0, 1, 1]) = .fail) :=
  ⟨⟨by decide, by decide, by decide, by decide, by decide, by decide, by decide,
      by decide, by decide⟩,
    c6_header_exactly_once.1 0x10 0x01 0x33 0 0x80 0x8D 0x5B 0 1 (by decide)
      (by decide) (by decide) (by decide) (by decide) (by decide) (by decide)
      (by decide) (by decide)⟩

/-! ### Short-descriptor retry -/

/-- Claim C7: a single control descriptor whose parse fails with
unexpected end is retried exactly once against the same payload extended
with 100 zero bytes (meeting the at-least-100 requirement), and the
retry result is final; successes and non-end errors are never retried.
Consequently a PROCESSING_UNIT descriptor of total length 12 (payload
`[5, id, src, m1, m2, 3, c0, c1, c2, s]` after the two-byte prefix, one
byte short of the 13 the subtype needs) first fails with unexpected end
and then parses successfully on the retry, with the `standards` bitmask
read from the zero padding, hence empty. -/
theorem c7_short_descriptor_retry :
    (∀ (st st2 : CtrlState) (raw : List Nat),
      parseCtrlImpl st raw = .ok st2 → parseCtrlDescriptor st raw = .ok st2) ∧
    (∀ (st : CtrlState) (raw : List Nat) (msg : String),
      parseCtrlImpl st raw = .error (.other msg) →
      parseCtrlDescriptor st raw = .error (.other msg)) ∧
    (∀ (st : CtrlState) (raw : List Nat),
      parseCtrlImpl st raw = .error .eof →
      parseCtrlDescriptor st raw = parseCtrlImpl st (raw ++ List.replicate 100 0)) ∧
    (∀ (st : CtrlState) (id src m1 m2 c0 c1 c2 s : Nat),
      id ≠ 0 → src ≠ 0 →
      parseCtrlImpl st [5, id, src, m1, m2, 3, c0, c1, c2, s] = .error .eof ∧
      parseCtrlDescriptor st [5, id, src, m1, m2, 3, c0, c1, c2, s] =
        .ok { st with units := st.units ++
          [⟨.processing ⟨id, src, m1 + 256 * m2,
            (c0 + 256 * c1 + 65536 * c2) &&& processingUnitControlsMask, s, 0⟩⟩] }) := by
  refine ⟨?_, ?_, ?_, ?_⟩
  · intro st st2 raw h
    unfold parseCtrlDescriptor
    rw [h]
  · intro st raw msg h
    unfold parseCtrlDescriptor
    rw [h]
  · intro st raw h
    unfold parseCtrlDescriptor
    rw [h]
  · intro st id src m1 m2 c0 c1 c2 s hid hsrc
    obtain ⟨id2, rfl⟩ : ∃ k, id = k + 1 := ⟨id - 1, by omega⟩
    obtain ⟨src2, rfl⟩ : ∃ k, src = k + 1 := ⟨src - 1, by omega⟩
    exact ⟨rfl, rfl⟩

/-- Claim C7 witness: the Leap-shaped short PROCESSING_UNIT payload with
id 3, source 1, a three-byte controls bitmask `FF 00 00` and string
index 7, against the empty parser state. -/
theorem c7_witness :
    ((3 : Nat) ≠ 0 ∧ (1 : Nat) ≠ 0) ∧
    (parseCtrlImpl ctrlState0 [5, 3, 1, 0, 0, 3, 255, 0, 0, 7] = .error .eof ∧
      parseCtrlDescriptor ctrlState0 [5, 3, 1, 0, 0, 3, 255, 0, 0, 7] =
        .ok { ctrlState0 with units := ctrlState0.units ++
          [⟨.processing ⟨3, 1, 0 + 256 * 0,
            (255 + 256 * 0 + 65536 * 0) &&& processingUnitControlsMask, 7, 0⟩⟩] }) :=
  ⟨⟨by decide, by decide⟩,
    c7_short_descriptor_retry.2.2.2 ctrlState0 3 1 0 0 255 0 0 7 (by decide)
      (by decide)⟩

/-! ### Totality of the control descriptor split loop -/

/-- Finishing the control block is never a panic or a divergence. -/
theorem finishCtrl_notStuck (st : CtrlState) : notStuck (finishCtrl st) := by
  unfold finishCtrl
  split <;> trivial

/-- With every descriptor length byte at least two, the split loop makes
progress and never panics nor runs out of fuel. -/
theorem ctrlLoop_notStuck : ∀ (fuel : Nat) (raw : List Nat) (st : CtrlState),
    raw.length < fuel → goodLensF fuel raw = true →
    notStuck (ctrlLoop fuel raw st) := by
  intro fuel
  induction fuel with
  | zero =>
    intro raw st hlen _
    omega
  | succ n ih =>
    intro raw st hlen hg
    match raw with
    | [] => exact finishCtrl_notStuck st
    | [x] => exact finishCtrl_notStuck st
    | len :: ty :: rest =>
      simp only [List.length_cons] at hlen
      simp only [goodLensF] at hg
      simp only [ctrlLoop]
      split
      · exact finishCtrl_notStuck st
      · next hgt =>
        rw [if_neg hgt] at hg
        simp only [List.length_cons, gt_iff_lt, not_lt] at hgt
        by_cases hlt : len < 2
        · rw [if_pos hlt] at hg
          exact absurd hg (by simp)
        · rw [if_neg hlt] at hg
          have hnext : ((len :: ty :: rest).drop len).length < n := by
            simp only [List.length_drop, List.length_cons]
            omega
          split
          · split
            · next hdl =>
              simp only [List.length_take, List.length_cons] at hdl
              omega
            · split
              · next st2 heq => exact ih _ st2 hnext hg
              · trivial
          · exact ih _ st hnext hg

/-- Claim C10 counterexample: a descriptor with `bLength = 1` and type
36 makes the caller slice `data[2..]` out of bounds (a panic), and a
descriptor with `bLength = 0` and a non-interpreted type makes the
split loop re-yield the same descriptor forever (fuel exhaustion in the
model), so the parse is not total. -/
theorem c10_counterexample :
    parseControlDesc [1, 36] = .panicked ∧
    parseControlDesc [0, 0] = .diverged := by
  exact ⟨rfl, rfl⟩

/-- Claim C10, amended: for every input in which each descriptor
encountered by the split loop declares a length of at least two,
`parse_control_desc` terminates and returns Ok or Err without panicking;
a length byte below two instead panics (when the descriptor type is 36)
or loops forever (when the length is zero and the type is skipped). -/
theorem c10_parse_total_when_good :
    ∀ raw : List Nat, goodLens raw = true →
      (∃ t, parseControlDesc raw = .ok t) ∨ parseControlDesc raw = .fail := by
  intro raw hg
  have h := ctrlLoop_notStuck (raw.length + 1) raw ctrlState0 (by omega) hg
  cases hr : parseControlDesc raw with
  | ok t => exact Or.inl ⟨t, rfl⟩
  | fail => exact Or.inr rfl
  | panicked =>
    unfold parseControlDesc at hr
    rw [hr] at h
    exact h.elim
  | diverged =>
    unfold parseControlDesc at hr
    rw [hr] at h
    exact h.elim

/-- Claim C10 witness: the totality law on a well-formed two-byte block
holding a single skipped descriptor. -/
theorem c10_witness :
    goodLens [2, 0] = true ∧
    ((∃ t, parseControlDesc [2, 0] = .ok t) ∨ parseControlDesc [2, 0] = .fail) :=
  ⟨by decide, c10_parse_total_when_good [2, 0] (by decide)⟩

end RUVC
